import Mathlib

/-!
Shallow embedding of `chanbg.py` (repository `rootcoma/chanbg`).

Python values are modelled explicitly: machine-independent `Int`/`Nat`
stand for Python ints, `Option` fields stand for dictionary keys that may
be absent, and `Except PyErr` models exceptions (`IndexError` from
`random.choice` on an empty sequence, `KeyError` from a missing dict key).
Network results and random choices are inputs of the embedded functions:
a `SelEnv` record carries the parsed JSON each fetch would return (`none`
models a failed fetch, which `_get_json` turns into Python `None`) and the
index each `random.choice` call would pick.  Effects that the claims talk
about are made observable in the return values: the number of API requests
issued, the seconds slept, whether the image binary was requested, and
whether the background setter was invoked.
-/

namespace Chanbg

/-- Python exceptions raised by the embedded code paths. -/
inductive PyErr where
  | indexError
  | keyError
deriving DecidableEq

/-- Module constant `ALLOW_STICKIES = False`. -/
def ALLOW_STICKIES : Bool := false

/-- Module constant `DISALLOWED_EXTENSIONS = ['.webm']`. -/
def DISALLOWED_EXTENSIONS : List String := [".webm"]

/-- Module constant `SLEEP_FAILURE = 1` (seconds). -/
def SLEEP_FAILURE : Nat := 1

/-- Module constant `DEF_BOARDS = ['w', 'wg']`. -/
def DEF_BOARDS : List String := ["w", "wg"]

/-- Module constant `DEF_IMAGE_FOLDER = "img"`. -/
def DEF_IMAGE_FOLDER : String := "img"

/-- Module constant `DEF_MIN_DIMENSION = (1152, 648)`. -/
def DEF_MIN_DIMENSION : Int × Int := (1152, 648)

/-- Module constant `DEF_MAX_DIMENSION = (DEF_MIN_DIMENSION[0]*6, DEF_MIN_DIMENSION[1]*6)`. -/
def DEF_MAX_DIMENSION : Int × Int := (DEF_MIN_DIMENSION.1 * 6, DEF_MIN_DIMENSION.2 * 6)

/-- Module constant `BG_CHANGE_CMD = "feh"`. -/
def BG_CHANGE_CMD : String := "feh"

/-- Module constant `BG_CHANGE_OPT_SUFFIX = ""`. -/
def BG_CHANGE_OPT_SUFFIX : String := ""

/-- Module constant `BG_CHANGE_OPT_FILL = "--bg-fill"`. -/
def BG_CHANGE_OPT_FILL : String := "--bg-fill"

/-- Module constant `PROTOCOL = "http"`. -/
def PROTOCOL : String := "http"

/-- Module constant `IMAGE_DOMAIN`. -/
def IMAGE_DOMAIN : String := PROTOCOL ++ "://i.4cdn.org"

/-- The CDN URL built by `IMAGE_FMT.format(board=..., filename=..., extension=...)`. -/
def image_url (board : String) (tim : Nat) (ext : String) : String :=
  IMAGE_DOMAIN ++ "/" ++ board ++ "/" ++ toString tim ++ ext

/-- One entry of a `threads` array in the board index JSON (`{"no": ...}`). -/
structure ThreadRec where
  no : Nat
deriving DecidableEq

/-- One page object of `threads.json` (`{"threads": [...]}`). -/
structure Page where
  threads : List ThreadRec
deriving DecidableEq

/-- A post dictionary from a thread's JSON.  Every key the program reads is
an `Option`, because the JSON may omit it (reading an absent key raises
`KeyError`). -/
structure Post where
  filename : Option String
  sticky : Option Int
  w : Option Int
  h : Option Int
  ext : Option String
  md5 : Option String
  tim : Option Nat
  no : Option Nat
deriving DecidableEq

/-- The thread-contents JSON object (`{"posts": [...]}`). -/
structure ThreadJson where
  posts : List Post
deriving DecidableEq

/-- The fully populated options dictionary, as read by the run-time
functions after `create_options` has filled every key. -/
structure Options where
  boards : List String
  image_folder : String
  min_dimension : Int × Int
  max_dimension : Int × Int
  cmd_scale_option : String
  cmd_suffix : String
deriving DecidableEq

/-- Inputs of one `_get_random_post` invocation: the parsed JSON each
fetch would return (`none` = fetch failed, so `_get_json` returned Python
`None`) and the index each `random.choice` would pick. -/
structure SelEnv where
  boardPick : Nat
  boardJson : Option (List Page)
  threadPick : Nat
  threadJson : Option ThreadJson
  postPick : Nat
deriving DecidableEq

/-- Python `random.choice(l)` given the index `k` the RNG would produce:
raises `IndexError` on an empty sequence, otherwise returns an element. -/
def pyChoice {α : Type} (l : List α) (k : Nat) : Except PyErr α :=
  if h : l.length = 0 then .error .indexError
  else .ok (l.get ⟨k % l.length, Nat.mod_lt _ (Nat.pos_of_ne_zero h)⟩)

/-- `_get_random_thread(b)`: fetches `threads.json` (result supplied by
`env.boardJson`), returns `none` (Python `False`) when the parsed JSON is
falsy, otherwise flattens `[x["no"] for y in json for x in y['threads']]`
and picks one at random (`IndexError` when the flattened list is empty). -/
def get_random_thread (env : SelEnv) : Except PyErr (Option Nat) :=
  match env.boardJson with
  | none => .ok none
  | some pages =>
    if pages = [] then .ok none
    else
      match pyChoice ((pages.map Page.threads).flatten.map ThreadRec.no) env.threadPick with
      | .error e => .error e
      | .ok t => .ok (some t)

/-- The per-post condition of the list comprehension in `_get_random_post`
(lines 78-85), with Python's left-to-right short-circuit evaluation:
a missing `w`, `h` or `ext` key is only read (raising `KeyError`) when the
earlier conjuncts held. -/
def postOK (minD maxD : Int × Int) (x : Post) : Except PyErr Bool :=
  match x.filename with
  | none => .ok false
  | some _ =>
    if x.sticky.isSome && !ALLOW_STICKIES then .ok false
    else
      match x.w with
      | none => .error .keyError
      | some w =>
        if ¬(w ≥ minD.1) then .ok false
        else if ¬(w ≤ maxD.1) then .ok false
        else
          match x.h with
          | none => .error .keyError
          | some hh =>
            if ¬(hh ≥ minD.2) then .ok false
            else if ¬(hh ≤ maxD.2) then .ok false
            else
              match x.ext with
              | none => .error .keyError
              | some e => .ok (!(DISALLOWED_EXTENSIONS.contains e))

/-- A Python list comprehension with a condition that may raise: the first
exception aborts the whole comprehension. -/
def exceptFilter {α : Type} (p : α → Except PyErr Bool) : List α → Except PyErr (List α)
  | [] => .ok []
  | x :: xs =>
    match p x with
    | .error e => .error e
    | .ok b =>
      match exceptFilter p xs with
      | .error e => .error e
      | .ok r => .ok (if b then x :: r else r)

/-- The three Python values `_get_random_post` can return: `False`
(failure), `None` (no suitable post), or the `{'board','thread','post'}`
dictionary. -/
inductive PostOutcome where
  | failure
  | nullRes
  | success (board : String) (thread : Nat) (post : Post)
deriving DecidableEq

/-- Observable result of one `_get_random_post` call: the returned value,
the number of API requests issued, and the seconds slept. -/
structure GPOut where
  outcome : PostOutcome
  requests : Nat
  slept : Nat
deriving DecidableEq

/-- `_get_random_post(options)` (lines 56-95).  Bounds are validated
before anything else; each `_get_json` call counts one API request; an
empty filtered list sleeps `SLEEP_FAILURE` seconds and returns `None`;
`if not t` is Python truthiness, so both `False` and a zero thread number
are failures. -/
def get_random_post (env : SelEnv) (o : Options) : Except PyErr GPOut :=
  if o.min_dimension.1 > o.max_dimension.1 ∨ o.min_dimension.2 > o.max_dimension.2 then
    .ok ⟨.failure, 0, 0⟩
  else
    match pyChoice o.boards env.boardPick with
    | .error e => .error e
    | .ok b =>
      match get_random_thread env with
      | .error e => .error e
      | .ok none => .ok ⟨.failure, 1, 0⟩
      | .ok (some t) =>
        if t = 0 then .ok ⟨.failure, 1, 0⟩
        else
          match env.threadJson with
          | none => .ok ⟨.failure, 2, 0⟩
          | some tj =>
            match exceptFilter (postOK o.min_dimension o.max_dimension) tj.posts with
            | .error e => .error e
            | .ok [] => .ok ⟨.nullRes, 2, SLEEP_FAILURE⟩
            | .ok (p0 :: ps) =>
              match pyChoice (p0 :: ps) env.postPick with
              | .error e => .error e
              | .ok p => .ok ⟨.success b t p, 2, 0⟩

/-- The `'+' -> '-'` replacement of `_md5_to_filename`. -/
def repPlus (c : Char) : Char := if c = '+' then '-' else c

/-- The `'/' -> '_'` replacement of `_md5_to_filename`. -/
def repSlash (c : Char) : Char := if c = '/' then '_' else c

/-- `_md5_to_filename(md5)` (line 130):
`md5[:22].replace('+', '-').replace('/', '_')`. -/
def md5_to_filename (md5 : String) : String :=
  ⟨((md5.data.take 22).map repPlus).map repSlash⟩

/-- Membership in the standard base64 alphabet. -/
def isB64Char (c : Char) : Bool :=
  ('A' ≤ c && c ≤ 'Z') || ('a' ≤ c && c ≤ 'z') || ('0' ≤ c && c ≤ '9') ||
    c == '+' || c == '/'

/-- A well-formed base64 encoding of a 16-byte MD5 digest: 24 characters,
the first 22 in the base64 alphabet, padded with `==`. -/
def isValidB64MD5 (s : String) : Bool :=
  s.data.length == 24 && (s.data.take 22).all isB64Char &&
    decide (s.data.drop 22 = ['=', '='])

/-- Inputs of the whole image-acquisition phase: a `SelEnv` per loop
iteration, the filesystem's answer to `os.path.isfile`, and whether the
streamed download would succeed. -/
structure RunEnv where
  sel : Nat → SelEnv
  fileExists : String → Bool
  saveOk : Bool

/-- `_save_image(url, path)` (lines 108-123): returns the path on success
and `False` (here `none`) when the download raises. -/
def save_image (url path : String) (ok : Bool) : Option String :=
  let _ := url
  if ok then some path else none

/-- Exit state of the `while post_info == None` loop in
`_get_random_image` (lines 141-149).  `finished` carries the final
`post_info`, the final value of `path` (`""` until a success assigns it)
and the number of `_get_random_post` calls made. -/
inductive LoopRes where
  | outOfFuel
  | err (e : PyErr)
  | finished (outcome : PostOutcome) (path : String) (selCalls : Nat)
deriving DecidableEq

/-- The `while post_info == None` loop of `_get_random_image`, fuelled.
`None` re-enters the loop (`continue` then `None == None`); `False` leaves
it (`continue` then `False == None` is Python `False`); a success computes
`path` (reading `post['md5']` and `post['ext']`, each a possible
`KeyError`) and leaves because the dictionary is not `None`. -/
def gri_loop (o : Options) (env : RunEnv) : Nat → Nat → LoopRes
  | 0, _ => .outOfFuel
  | fuel + 1, i =>
    match get_random_post (env.sel i) o with
    | .error e => .err e
    | .ok out =>
      match out.outcome with
      | .nullRes => gri_loop o env fuel (i + 1)
      | .failure => .finished .failure "" (i + 1)
      | .success b t p =>
        match p.md5 with
        | none => .err .keyError
        | some m =>
          match p.ext with
          | none => .err .keyError
          | some e =>
            .finished (.success b t p)
              (o.image_folder ++ "/" ++ md5_to_filename m ++ e) (i + 1)

/-- Result of `_get_random_image`: the returned value (`none` = Python
`False`), the number of selector calls, and the number of HTTP requests
made for the image binary (0 or 1). -/
inductive GIRes where
  | outOfFuel
  | err (e : PyErr)
  | result (r : Option String) (selCalls : Nat) (imgRequests : Nat)
deriving DecidableEq

/-- `_get_random_image(options)` (lines 132-162).  After the loop, the
info log reads `post['tim']`, `post['ext']`, `post['w']`, `post['h']` and
`post['no']` (possible `KeyError`s), then `_check_file_exists(path)`
short-circuits a cache hit before any image request;
`_try_create_image_folder` swallows its errors and has no observable
effect in this model. -/
def get_random_image (o : Options) (env : RunEnv) (fuel : Nat) : GIRes :=
  match gri_loop o env fuel 0 with
  | .outOfFuel => .outOfFuel
  | .err e => .err e
  | .finished .failure _ s => .result none s 0
  | .finished .nullRes _ s => .result none s 0
  | .finished (.success b _ p) path s =>
    match p.tim, p.ext, p.w, p.h, p.no with
    | some tim, some ext, some _, some _, some _ =>
      if env.fileExists path then .result (some path) s 0
      else
        match save_image (image_url b tim ext) path env.saveOk with
        | some pth => .result (some pth) s 1
        | none => .result none s 1
    | _, _, _, _, _ => .err .keyError

/-- The shell command line `set_background` joins (line 189). -/
def bg_args (path : String) (o : Options) : String :=
  String.intercalate " " [BG_CHANGE_CMD, o.cmd_scale_option, path, o.cmd_suffix]

/-- `set_background(path, options)` (lines 184-196): builds the command
line, runs it, and returns the subprocess exit status (an input of the
embedding); a non-zero status is only logged. -/
def set_background (path : String) (o : Options) (exitStatus : Int) : Int :=
  let _ := bg_args path o
  exitStatus

/-- Python values `update_background` can evaluate to: `False` from the
explicit returns, `None` from falling off the end, and `True`, which the
specification asserts but the function never produces. -/
inductive UBRes where
  | retFalse
  | retNone
  | retTrue
deriving DecidableEq

/-- Result of `update_background`: the returned value together with the
setter's exit status when the setter was invoked (`none` = not invoked). -/
inductive UBOut where
  | outOfFuel
  | err (e : PyErr)
  | done (ret : UBRes) (setter : Option Int)
deriving DecidableEq

/-- `update_background(options)` (lines 216-229).  `if not path` is Python
truthiness (`False` or the empty string); the file-existence recheck
guards the setter call; after `set_background` the function ends without a
`return`, i.e. returns `None`. -/
def update_background (o : Options) (env : RunEnv) (setterStatus : Int)
    (fuel : Nat) : UBOut :=
  match get_random_image o env fuel with
  | .outOfFuel => .outOfFuel
  | .err e => .err e
  | .result none _ _ => .done .retFalse none
  | .result (some path) _ _ =>
    if path = "" then .done .retFalse none
    else if env.fileExists path then
      .done .retNone (some (set_background path o setterStatus))
    else .done .retFalse none

/-- Fate of the process after one iteration of the `while True` loop at
the bottom of the file: the `try` around the loop catches only
`KeyboardInterrupt`, so any other exception terminates the process.
Running out of fuel models non-termination, which is not a crash. -/
inductive Fate where
  | continues
  | crashed (e : PyErr)
deriving DecidableEq

/-- One iteration of the `while True: update_background(options);
time.sleep(timeout)` loop (lines 297-302). -/
def main_iteration (o : Options) (env : RunEnv) (setterStatus : Int)
    (fuel : Nat) : Fate :=
  match update_background o env setterStatus fuel with
  | .err e => .crashed e
  | _ => .continues

/-- A Python value that can appear in the options dictionary handed to
`create_options`. -/
inductive PyVal where
  | pynone
  | str (s : String)
  | strList (l : List String)
  | intPair (p : Int × Int)
deriving DecidableEq

/-- Python truthiness of a `PyVal`: `None`, the empty string and the empty
list are falsy; a pair of ints is a non-empty tuple, hence truthy. -/
def truthy : PyVal → Bool
  | .pynone => false
  | .str s => !(s == "")
  | .strList l => !l.isEmpty
  | .intPair _ => true

/-- A Python dictionary with string keys, as a partial map. -/
def Dict : Type := String → Option PyVal

/-- `options[k] = v`. -/
def dictSet (d : Dict) (k : String) (v : PyVal) : Dict :=
  fun q => if q = k then some v else d q

/-- The condition `k not in options or not options[k]`. -/
def needsDefault (d : Dict) (k : String) : Bool :=
  match d k with
  | none => true
  | some v => !truthy v

/-- One `if ... : options[k] = default` block of `create_options`. -/
def setDefault (d : Dict) (k : String) (v : PyVal) : Dict :=
  if needsDefault d k then dictSet d k v else d

/-- `create_options(options)` (lines 198-214): fills each of the six keys
with its hardcoded default when the key is absent or its value is falsy,
mutating and returning the same dictionary. -/
def create_options (options : Dict) : Dict :=
  setDefault (setDefault (setDefault (setDefault (setDefault (setDefault options
    "boards" (.strList DEF_BOARDS))
    "image_folder" (.str DEF_IMAGE_FOLDER))
    "min_dimension" (.intPair DEF_MIN_DIMENSION))
    "max_dimension" (.intPair DEF_MAX_DIMENSION))
    "cmd_scale_option" (.str BG_CHANGE_OPT_FILL))
    "cmd_suffix" (.str BG_CHANGE_OPT_SUFFIX)

/-- The result of `pyChoice` is an element of the sequence. -/
lemma pyChoice_mem {α : Type} {l : List α} {k : Nat} {a : α}
    (h : pyChoice l k = .ok a) : a ∈ l := by
  unfold pyChoice at h
  split at h
  · exact absurd h (by simp)
  · exact Except.ok.inj h ▸ List.get_mem l _ _

/-- `random.choice` on a non-empty sequence does not raise. -/
lemma pyChoice_ok_of_ne_nil {α : Type} (l : List α) (k : Nat) (h : l ≠ []) :
    ∃ a, pyChoice l k = .ok a := by
  unfold pyChoice
  rw [dif_neg (by simpa using h)]
  exact ⟨_, rfl⟩

/-- `random.choice` on the empty sequence raises `IndexError`. -/
lemma pyChoice_nil {α : Type} (k : Nat) :
    pyChoice ([] : List α) k = .error .indexError := rfl

/-- Every element kept by `exceptFilter` satisfied its condition. -/
lemma exceptFilter_mem {α : Type} {p : α → Except PyErr Bool} :
    ∀ {l r : List α}, exceptFilter p l = .ok r → ∀ {a : α}, a ∈ r → p a = .ok true
  | [], r, h, a, ha => by
    simp only [exceptFilter] at h
    cases h
    simp at ha
  | x :: xs, r, h, a, ha => by
    simp only [exceptFilter] at h
    split at h
    · exact absurd h (by simp)
    · rename_i b hb
      split at h
      · exact absurd h (by simp)
      · rename_i rest hrest
        cases h
        split at ha
        · rename_i hbtrue
          rcases List.mem_cons.mp ha with h1 | h2
          · exact h1 ▸ hbtrue ▸ hb
          · exact exceptFilter_mem hrest h2
        · exact exceptFilter_mem hrest ha

/-- Unpacking the list-comprehension condition when it evaluated to
`True`: the post has a filename, honours the sticky policy, has both
dimensions inside the closed interval, and an allowed extension. -/
lemma postOK_true {minD maxD : Int × Int} {x : Post}
    (h : postOK minD maxD x = .ok true) :
    x.filename.isSome = true ∧ (x.sticky = none ∨ ALLOW_STICKIES = true) ∧
      (∃ w, x.w = some w ∧ minD.1 ≤ w ∧ w ≤ maxD.1) ∧
      (∃ hh, x.h = some hh ∧ minD.2 ≤ hh ∧ hh ≤ maxD.2) ∧
      (∃ e, x.ext = some e ∧ e ∉ DISALLOWED_EXTENSIONS) := by
  unfold postOK at h
  split at h
  · exact absurd h (by simp)
  · rename_i f hf
    split at h
    · exact absurd h (by simp)
    · rename_i hst
      refine ⟨by simp [hf], ?_, ?_⟩
      · rcases Bool.and_eq_false_iff.mp (Bool.not_eq_true _ ▸ hst) with h1 | h1
        · exact Or.inl (by simpa [Option.isSome_iff_exists] using h1)
        · exact Or.inr (by simpa using h1)
      · split at h
        · exact absurd h (by simp)
        · rename_i w hw
          split at h
          · exact absurd h (by simp)
          · split at h
            · exact absurd h (by simp)
            · rename_i hw1 hw2
              split at h
              · exact absurd h (by simp)
              · rename_i hh hhh
                split at h
                · exact absurd h (by simp)
                · split at h
                  · exact absurd h (by simp)
                  · rename_i hh1 hh2
                    split at h
                    · exact absurd h (by simp)
                    · rename_i e he
                      refine ⟨⟨w, hw, by omega, by omega⟩,
                        ⟨hh, hhh, by omega, by omega⟩, ⟨e, he, ?_⟩⟩
                      have hc := Except.ok.inj h
                      simp at hc
                      exact hc

/-- A post of the running example: 1920x1080 jpeg, no sticky flag. -/
def post1 : Post :=
  ⟨some "wall", none, some 1920, some 1080, some ".jpg", some "md5val", some 123, some 77⟩

/-- Options of the running example (the defaults, one board). -/
def opts1 : Options := ⟨["w"], "img", (1152, 648), (6912, 3888), "--bg-fill", ""⟩

/-- Selection environment of the running example: one thread, one post. -/
def env1 : SelEnv := ⟨0, some [⟨[⟨1001⟩]⟩], 0, some ⟨[post1]⟩, 0⟩

/-- C1: with componentwise-ordered bounds, `_get_random_post` can only
return a post that has a filename, honours the sticky policy, whose width
and height lie in the closed configured intervals, and whose extension is
outside the disallowed set. -/
theorem selected_post_satisfies_filter (o : Options) (env : SelEnv)
    (out : GPOut) (b : String) (t : Nat) (p : Post)
    (hbounds : o.min_dimension.1 ≤ o.max_dimension.1 ∧
      o.min_dimension.2 ≤ o.max_dimension.2)
    (hrun : get_random_post env o = .ok out)
    (hsucc : out.outcome = .success b t p) :
    p.filename.isSome = true ∧ (p.sticky = none ∨ ALLOW_STICKIES = true) ∧
      (∃ w, p.w = some w ∧ o.min_dimension.1 ≤ w ∧ w ≤ o.max_dimension.1) ∧
      (∃ hh, p.h = some hh ∧ o.min_dimension.2 ≤ hh ∧ hh ≤ o.max_dimension.2) ∧
      (∃ e, p.ext = some e ∧ e ∉ DISALLOWED_EXTENSIONS) := by
  unfold get_random_post at hrun
  split at hrun
  · obtain rfl := Except.ok.inj hrun
    simp at hsucc
  · split at hrun
    · exact absurd hrun (by simp)
    · split at hrun
      · exact absurd hrun (by simp)
      · obtain rfl := Except.ok.inj hrun
        simp at hsucc
      · split at hrun
        · obtain rfl := Except.ok.inj hrun
          simp at hsucc
        · split at hrun
          · obtain rfl := Except.ok.inj hrun
            simp at hsucc
          · split at hrun
            · exact absurd hrun (by simp)
            · obtain rfl := Except.ok.inj hrun
              simp at hsucc
            · split at hrun
              · exact absurd hrun (by simp)
              · obtain rfl := Except.ok.inj hrun
                simp only [GPOut.outcome] at hsucc
                injection hsucc with h1 h2 h3
                subst h1; subst h2; subst h3
                rename exceptFilter _ _ = _ => hfilter
                rename pyChoice _ _ = _ => hpick
                exact postOK_true (exceptFilter_mem hfilter (pyChoice_mem hpick))

/-- Concrete instantiation of `selected_post_satisfies_filter` on the
running example, where the selector succeeds with `post1`. -/
theorem selected_post_satisfies_filter_witness :
    post1.filename.isSome = true ∧ (post1.sticky = none ∨ ALLOW_STICKIES = true) ∧
      (∃ w, post1.w = some w ∧ opts1.min_dimension.1 ≤ w ∧ w ≤ opts1.max_dimension.1) ∧
      (∃ hh, post1.h = some hh ∧ opts1.min_dimension.2 ≤ hh ∧ hh ≤ opts1.max_dimension.2) ∧
      (∃ e, post1.ext = some e ∧ e ∉ DISALLOWED_EXTENSIONS) :=
  selected_post_satisfies_filter opts1 env1 ⟨.success "w" 1001 post1, 2, 0⟩
    "w" 1001 post1 (by decide) rfl rfl

/-- C2: whenever some component of the minimum dimension exceeds the
corresponding maximum component, `_get_random_post` returns `False` with
zero API requests issued (and no sleep). -/
theorem invalid_bounds_fail_fast (o : Options) (env : SelEnv)
    (h : o.min_dimension.1 > o.max_dimension.1 ∨
      o.min_dimension.2 > o.max_dimension.2) :
    get_random_post env o = .ok ⟨.failure, 0, 0⟩ := by
  unfold get_random_post
  rw [if_pos h]

/-- Options whose minimum width exceeds the maximum width. -/
def opts2 : Options := ⟨["w"], "img", (100, 100), (50, 200), "--bg-fill", ""⟩

/-- Concrete instantiation of `invalid_bounds_fail_fast`. -/
theorem invalid_bounds_fail_fast_witness :
    get_random_post env1 opts2 = .ok ⟨.failure, 0, 0⟩ :=
  invalid_bounds_fail_fast opts2 env1 (Or.inl (by decide))

/-- C4: a successfully fetched thread whose post list filters to nothing
makes `_get_random_post` sleep `SLEEP_FAILURE` seconds and return `None`
(`nullRes`), not `False`. -/
theorem empty_filter_sleeps_and_returns_null (o : Options) (env : SelEnv)
    (t : Nat) (tj : ThreadJson)
    (hbounds : ¬(o.min_dimension.1 > o.max_dimension.1 ∨
      o.min_dimension.2 > o.max_dimension.2))
    (hboards : o.boards ≠ [])
    (ht : get_random_thread env = .ok (some t)) (ht0 : t ≠ 0)
    (hj : env.threadJson = some tj)
    (hf : exceptFilter (postOK o.min_dimension o.max_dimension) tj.posts = .ok []) :
    get_random_post env o = .ok ⟨.nullRes, 2, SLEEP_FAILURE⟩ := by
  unfold get_random_post
  rw [if_neg hbounds]
  obtain ⟨b, hb⟩ := pyChoice_ok_of_ne_nil o.boards env.boardPick hboards
  simp only [hb, ht]
  rw [if_neg ht0]
  simp only [hj, hf]

/-- The only post of scenario B: suitable dimensions but a `.webm`. -/
def post_webm : Post :=
  ⟨some "vid", none, some 1920, some 1080, some ".webm", some "m", some 5, some 9⟩

/-- Selection environment of scenario B. -/
def env4 : SelEnv := ⟨0, some [⟨[⟨1001⟩]⟩], 0, some ⟨[post_webm]⟩, 0⟩

/-- Concrete instantiation of `empty_filter_sleeps_and_returns_null` on
scenario B: the single `.webm` post is filtered out. -/
theorem empty_filter_sleeps_and_returns_null_witness :
    get_random_post env4 opts1 = .ok ⟨.nullRes, 2, SLEEP_FAILURE⟩ :=
  empty_filter_sleeps_and_returns_null opts1 env4 1001 ⟨[post_webm]⟩
    (by decide) (by simp [opts1]) rfl (by decide) rfl rfl

/-- A selection environment in which the board-index fetch fails, so the
selector returns `False`. -/
def envFail : SelEnv := ⟨0, none, 0, none, 0⟩

/-- A run environment whose every selector call fails. -/
def renv3 : RunEnv := ⟨fun _ => envFail, fun _ => false, true⟩

/-- C3 counterexample: when `_get_random_post` returns `False`, the
`while post_info == None` loop in `_get_random_image` exits (because
`False == None` is Python `False`) and the function returns `False` after
exactly one selector call — it does not silently retry as it does on
`None`. -/
theorem failure_not_retried_cex :
    get_random_post (renv3.sel 0) opts1 = .ok ⟨.failure, 1, 0⟩ ∧
      get_random_image opts1 renv3 5 = .result none 1 0 := ⟨rfl, rfl⟩

/-- C3 amended: the loop silently retries only on the `None` outcome; on
the `False` outcome it aborts immediately, returning `False` from
`_get_random_image` after a single selector invocation. -/
theorem failure_aborts_and_null_retries (o : Options) (env : RunEnv)
    (fuel : Nat) (out : GPOut)
    (h0 : get_random_post (env.sel 0) o = .ok out) :
    (out.outcome = .failure →
      get_random_image o env (fuel + 1) = .result none 1 0) ∧
    (out.outcome = .nullRes →
      gri_loop o env (fuel + 1) 0 = gri_loop o env fuel 1) := by
  constructor
  · intro hf
    have hl : gri_loop o env (fuel + 1) 0 = .finished .failure "" 1 := by
      unfold gri_loop
      simp only [h0, hf]
    unfold get_random_image
    rw [hl]
  · intro hn
    conv_lhs => unfold gri_loop
    simp only [h0, hn]

/-- Concrete instantiation of `failure_aborts_and_null_retries`: with a
failing selector, acquisition aborts after one call. -/
theorem failure_aborts_and_null_retries_witness :
    get_random_image opts1 renv3 5 = .result none 1 0 :=
  (failure_aborts_and_null_retries opts1 renv3 4 ⟨.failure, 1, 0⟩ rfl).1 rfl

/-- C5: when the image-acquisition loop ends with a selected post whose
derived destination path names an existing file, `_get_random_image`
returns that path with zero image-binary requests. -/
theorem cache_hit_skips_download (o : Options) (env : RunEnv) (fuel : Nat)
    (b : String) (t : Nat) (p : Post) (path : String) (n : Nat)
    (hl : gri_loop o env fuel 0 = .finished (.success b t p) path n)
    (htim : p.tim.isSome = true) (hext : p.ext.isSome = true)
    (hw : p.w.isSome = true) (hh : p.h.isSome = true) (hno : p.no.isSome = true)
    (hex : env.fileExists path = true) :
    get_random_image o env fuel = .result (some path) n 0 := by
  obtain ⟨tim, htim'⟩ := Option.isSome_iff_exists.mp htim
  obtain ⟨ext, hext'⟩ := Option.isSome_iff_exists.mp hext
  obtain ⟨w, hw'⟩ := Option.isSome_iff_exists.mp hw
  obtain ⟨hhv, hh'⟩ := Option.isSome_iff_exists.mp hh
  obtain ⟨no, hno'⟩ := Option.isSome_iff_exists.mp hno
  unfold get_random_image
  rw [hl]
  simp only [htim', hext', hw', hh', hno']
  rw [if_pos hex]

/-- A run environment that selects `post1` and already has every file. -/
def renv5 : RunEnv := ⟨fun _ => env1, fun _ => true, true⟩

/-- Concrete instantiation of `cache_hit_skips_download` on the running
example, whose destination path is `img/md5val.jpg`. -/
theorem cache_hit_skips_download_witness :
    get_random_image opts1 renv5 5 = .result (some "img/md5val.jpg") 1 0 :=
  cache_hit_skips_download opts1 renv5 5 "w" 1001 post1 "img/md5val.jpg" 1
    rfl rfl rfl rfl rfl rfl rfl

/-- C6: when image acquisition returns `False`, `update_background`
returns `False` and the background setter is not invoked. -/
theorem acquisition_failure_aborts_cycle (o : Options) (env : RunEnv)
    (s : Int) (fuel c r : Nat)
    (h : get_random_image o env fuel = .result none c r) :
    update_background o env s fuel = .done .retFalse none := by
  unfold update_background
  rw [h]

/-- Concrete instantiation of `acquisition_failure_aborts_cycle` on
scenario C: the board-index fetch fails, the cycle aborts, no setter. -/
theorem acquisition_failure_aborts_cycle_witness :
    update_background opts1 renv3 0 5 = .done .retFalse none :=
  acquisition_failure_aborts_cycle opts1 renv3 0 5 1 0 rfl

/-- C7 counterexample: a cycle in which acquisition succeeds and the file
exists invokes the setter (here with exit status 1) but evaluates to
`None` — `update_background` has no `return` after `set_background` — so
it does not return `True` as claimed. -/
theorem cycle_returns_none_not_true_cex :
    update_background opts1 renv5 1 5 = .done .retNone (some 1) ∧
      ∀ s : Option Int, UBOut.done .retNone (some 1) ≠ .done .retTrue s := by
  refine ⟨rfl, ?_⟩
  intro s h
  simp at h

/-- C7 amended: when acquisition succeeds and the path names an existing
file, `update_background` invokes the setter and returns `None` (falling
off the end of the function), regardless of the setter's exit status. -/
theorem cycle_sets_background_and_returns_none (o : Options) (env : RunEnv)
    (s : Int) (fuel c r : Nat) (path : String)
    (h : get_random_image o env fuel = .result (some path) c r)
    (hp : path ≠ "") (hex : env.fileExists path = true) :
    update_background o env s fuel = .done .retNone (some s) := by
  unfold update_background
  simp only [h]
  rw [if_neg hp, if_pos hex]
  rfl

/-- Concrete instantiation of `cycle_sets_background_and_returns_none`
with a non-zero exit status. -/
theorem cycle_sets_background_and_returns_none_witness :
    update_background opts1 renv5 7 5 = .done .retNone (some 7) :=
  cycle_sets_background_and_returns_none opts1 renv5 7 5 1 0 "img/md5val.jpg"
    rfl (by decide) rfl

/-- Data view of `md5_to_filename`. -/
lemma md5_data (s : String) :
    (md5_to_filename s).data = ((s.data.take 22).map repPlus).map repSlash := rfl

/-- The composed character replacement never produces `'+'` or `'/'`. -/
lemma rep_safe (e : Char) :
    repSlash (repPlus e) ≠ '+' ∧ repSlash (repPlus e) ≠ '/' := by
  by_cases h1 : e = '+'
  · subst h1; exact ⟨by decide, by decide⟩
  · by_cases h2 : e = '/'
    · subst h2; exact ⟨by decide, by decide⟩
    · have hp : repPlus e = e := by unfold repPlus; exact if_neg h1
      have hs : repSlash e = e := by unfold repSlash; exact if_neg h2
      rw [hp, hs]
      exact ⟨h1, h2⟩

/-- Characters of `md5_to_filename`'s output are never `'+'` or `'/'`. -/
lemma mem_md5_safe {s : String} {c : Char} (hc : c ∈ (md5_to_filename s).data) :
    c ≠ '+' ∧ c ≠ '/' := by
  rw [md5_data, List.map_map] at hc
  obtain ⟨e, _, rfl⟩ := List.mem_map.mp hc
  exact rep_safe e

/-- Mapping a function that fixes every element of a list is the identity. -/
lemma map_id_of_mem {l : List Char} {f : Char → Char}
    (h : ∀ c ∈ l, f c = c) : l.map f = l := by
  induction l with
  | nil => rfl
  | cons x xs ih =>
    simp only [List.map_cons]
    rw [h x (List.mem_cons_self x xs), ih fun c hc => h c (List.mem_cons_of_mem x hc)]

/-- The output of `md5_to_filename` has at most 22 characters. -/
lemma md5_len_le (s : String) : (md5_to_filename s).data.length ≤ 22 := by
  rw [md5_data]
  simp only [List.length_map, List.length_take]
  omega

/-- Applying `_md5_to_filename` twice equals applying it once. -/
lemma md5_to_filename_idem (s : String) :
    md5_to_filename (md5_to_filename s) = md5_to_filename s := by
  have h1 : ∀ c ∈ (md5_to_filename s).data, repPlus c = c := fun c hc => by
    unfold repPlus; exact if_neg (mem_md5_safe hc).1
  have h2 : ∀ c ∈ (md5_to_filename s).data, repSlash c = c := fun c hc => by
    unfold repSlash; exact if_neg (mem_md5_safe hc).2
  apply String.ext
  conv_lhs => rw [md5_data (md5_to_filename s)]
  rw [List.take_of_length_le (md5_len_le s), map_id_of_mem h1, map_id_of_mem h2]

/-- The composed replacement is injective on the base64 alphabet, whose
characters it sends outside the alphabet only via `'+'` and `'/'`. -/
lemma rep_inj {x y : Char} (hx : isB64Char x = true) (hy : isB64Char y = true)
    (h : repSlash (repPlus x) = repSlash (repPlus y)) : x = y := by
  by_cases hx1 : x = '+'
  · by_cases hy1 : y = '+'
    · rw [hx1, hy1]
    · by_cases hy2 : y = '/'
      · subst hx1; subst hy2
        exact absurd h (by decide)
      · subst hx1
        rw [show repSlash (repPlus '+') = '-' from by decide] at h
        rw [show repPlus y = y from by unfold repPlus; exact if_neg hy1,
          show repSlash y = y from by unfold repSlash; exact if_neg hy2] at h
        rw [← h] at hy
        exact absurd hy (by decide)
  · by_cases hx2 : x = '/'
    · by_cases hy1 : y = '+'
      · subst hx2; subst hy1
        exact absurd h (by decide)
      · by_cases hy2 : y = '/'
        · rw [hx2, hy2]
        · subst hx2
          rw [show repSlash (repPlus '/') = '_' from by decide] at h
          rw [show repPlus y = y from by unfold repPlus; exact if_neg hy1,
            show repSlash y = y from by unfold repSlash; exact if_neg hy2] at h
          rw [← h] at hy
          exact absurd hy (by decide)
    · rw [show repPlus x = x from by unfold repPlus; exact if_neg hx1,
        show repSlash x = x from by unfold repSlash; exact if_neg hx2] at h
      by_cases hy1 : y = '+'
      · subst hy1
        rw [show repSlash (repPlus '+') = '-' from by decide] at h
        rw [h] at hx
        exact absurd hx (by decide)
      · by_cases hy2 : y = '/'
        · subst hy2
          rw [show repSlash (repPlus '/') = '_' from by decide] at h
          rw [h] at hx
          exact absurd hx (by decide)
        · rw [show repPlus y = y from by unfold repPlus; exact if_neg hy1,
            show repSlash y = y from by unfold repSlash; exact if_neg hy2] at h
          exact h

/-- Mapping the composed replacement is injective on base64 strings. -/
lemma map_rep_inj : ∀ {l1 l2 : List Char}, l1.all isB64Char = true →
    l2.all isB64Char = true →
    l1.map (repSlash ∘ repPlus) = l2.map (repSlash ∘ repPlus) → l1 = l2
  | [], [], _, _, _ => rfl
  | [], _ :: _, _, _, h => by simp at h
  | _ :: _, [], _, _, h => by simp at h
  | x :: xs, y :: ys, h1, h2, h => by
    simp only [List.map_cons, List.cons.injEq, Function.comp] at h
    simp only [List.all_cons, Bool.and_eq_true] at h1 h2
    obtain ⟨hh, ht⟩ := h
    rw [rep_inj h1.1 h2.1 hh,
      map_rep_inj h1.2 h2.2 (by simpa [Function.comp] using ht)]

/-- Distinct valid base64-encoded MD5 digests keep distinct filenames. -/
lemma md5_to_filename_inj {a b : String} (ha : isValidB64MD5 a = true)
    (hb : isValidB64MD5 b = true) (hne : a ≠ b) :
    md5_to_filename a ≠ md5_to_filename b := by
  intro h
  apply hne
  unfold isValidB64MD5 at ha hb
  simp only [Bool.and_eq_true, beq_iff_eq, decide_eq_true_eq] at ha hb
  obtain ⟨⟨hlen_a, hall_a⟩, hdrop_a⟩ := ha
  obtain ⟨⟨hlen_b, hall_b⟩, hdrop_b⟩ := hb
  have hdata := congrArg String.data h
  rw [md5_data, md5_data, List.map_map, List.map_map] at hdata
  have htake : a.data.take 22 = b.data.take 22 := map_rep_inj hall_a hall_b hdata
  apply String.ext
  rw [← List.take_append_drop 22 a.data, ← List.take_append_drop 22 b.data,
    htake, hdrop_a, hdrop_b]

/-- C8: `_md5_to_filename` is idempotent on every string, injective on
distinct valid 24-character base64-encoded MD5 digests, and its output on
a valid digest contains neither `'+'` nor `'/'`. -/
theorem md5_filename_props :
    (∀ s, md5_to_filename (md5_to_filename s) = md5_to_filename s) ∧
    (∀ a b, isValidB64MD5 a = true → isValidB64MD5 b = true → a ≠ b →
      md5_to_filename a ≠ md5_to_filename b) ∧
    (∀ s, isValidB64MD5 s = true →
      '+' ∉ (md5_to_filename s).data ∧
        '/' ∉ (md5_to_filename s).data) :=
  ⟨md5_to_filename_idem,
   fun _ _ ha hb hne => md5_to_filename_inj ha hb hne,
   fun _ _ => ⟨fun hc => (mem_md5_safe hc).1 (by decide),
     fun hc => (mem_md5_safe hc).2 (by decide)⟩⟩

/-- Concrete instantiation of `md5_filename_props`: two valid digests
differing in their 22nd character (a `'+'` against a `'/'`) map to
distinct safe filenames. -/
theorem md5_filename_props_witness :
    (md5_to_filename "ABCDEFGHIJKLMNOPQRSTU+==" ≠
      md5_to_filename "ABCDEFGHIJKLMNOPQRSTU/==") ∧
    ('+' ∉ (md5_to_filename "ABCDEFGHIJKLMNOPQRSTU+==").data ∧
      '/' ∉ (md5_to_filename "ABCDEFGHIJKLMNOPQRSTU+==").data) :=
  ⟨md5_filename_props.2.1 _ _ (by decide) (by decide) (by decide),
   md5_filename_props.2.2 _ (by decide)⟩

/-- A board index whose single page carries an empty `threads` array. -/
def envEmptyThreads : SelEnv := ⟨0, some [⟨[]⟩], 0, none, 0⟩

/-- A run environment whose every board index has only empty pages. -/
def renv9 : RunEnv := ⟨fun _ => envEmptyThreads, fun _ => false, true⟩

/-- C9 counterexample: a well-parsed board index whose pages all contain
empty thread lists makes `random.choice` raise `IndexError`; the `try` at
the top level catches only `KeyboardInterrupt`, so the iteration crashes
the process instead of continuing. -/
theorem unexpected_shape_crashes_cex :
    main_iteration opts1 renv9 0 5 = .crashed .indexError ∧
      Fate.crashed .indexError ≠ .continues := ⟨rfl, by simp⟩

/-- A post with a filename but no `w` key. -/
def post_missing_w : Post :=
  ⟨some "pic", none, none, some 100, some ".jpg", some "m", some 1, some 2⟩

/-- A selection environment whose thread contains `post_missing_w`. -/
def envMissingW : SelEnv := ⟨0, some [⟨[⟨1001⟩]⟩], 0, some ⟨[post_missing_w]⟩, 0⟩

/-- A run environment that always serves `envMissingW`. -/
def renv9b : RunEnv := ⟨fun _ => envMissingW, fun _ => false, true⟩

/-- C9 amended: unexpected but well-parsed API data shapes are not
absorbed — a thread index whose pages all contain empty thread lists
raises an uncaught `IndexError`, and a post with a filename but no width
key raises an uncaught `KeyError`; either terminates the process, since
only the keyboard interrupt is caught. -/
theorem unexpected_shapes_terminate_process (o : Options) (env : RunEnv)
    (s : Int) (fuel : Nat) (pages : List Page)
    (hbounds : ¬(o.min_dimension.1 > o.max_dimension.1 ∨
      o.min_dimension.2 > o.max_dimension.2))
    (hboards : o.boards ≠ [])
    (hpj : (env.sel 0).boardJson = some pages)
    (hne : pages ≠ [])
    (hempty : ∀ pg ∈ pages, pg.threads = []) :
    main_iteration o env s (fuel + 1) = .crashed .indexError ∧
      main_iteration opts1 renv9b 0 5 = .crashed .keyError := by
  refine ⟨?_, rfl⟩
  have hflat : ((pages.map Page.threads).flatten.map ThreadRec.no) = [] := by
    have hjoin : (pages.map Page.threads).flatten = [] := by
      rw [List.flatten_eq_nil_iff]
      intro x hx
      obtain ⟨pg, hpg, rfl⟩ := List.mem_map.mp hx
      exact hempty pg hpg
    rw [hjoin]
    rfl
  have hthread : get_random_thread (env.sel 0) = .error .indexError := by
    unfold get_random_thread
    simp only [hpj]
    rw [if_neg hne, hflat, pyChoice_nil]
  have hpost : get_random_post (env.sel 0) o = .error .indexError := by
    unfold get_random_post
    rw [if_neg hbounds]
    obtain ⟨b, hbch⟩ := pyChoice_ok_of_ne_nil o.boards (env.sel 0).boardPick hboards
    simp only [hbch, hthread]
  have hloop : gri_loop o env (fuel + 1) 0 = .err .indexError := by
    unfold gri_loop
    simp only [hpost]
  unfold main_iteration update_background get_random_image
  rw [hloop]

/-- Concrete instantiation of `unexpected_shapes_terminate_process` on a
board index with one empty page. -/
theorem unexpected_shapes_terminate_process_witness :
    main_iteration opts1 renv9 0 5 = .crashed .indexError :=
  (unexpected_shapes_terminate_process opts1 renv9 0 4 [⟨[]⟩] (by decide)
    (by decide) rfl (by decide) (by decide)).1

/-- The six keys `create_options` fills with defaults. -/
def OPTION_KEYS : List String :=
  ["boards", "image_folder", "min_dimension", "max_dimension",
    "cmd_scale_option", "cmd_suffix"]

/-- Reading a key other than the one a `setDefault` block writes sees the
underlying dictionary. -/
lemma setDefault_ne (d : Dict) (k : String) (v : PyVal) (q : String)
    (h : q ≠ k) : setDefault d k v q = d q := by
  unfold setDefault dictSet
  split
  · simp only [if_neg h]
  · rfl

/-- Reading the key a `setDefault` block writes. -/
lemma setDefault_self (d : Dict) (k : String) (v : PyVal) :
    setDefault d k v k = if needsDefault d k then some v else d k := by
  unfold setDefault dictSet
  split
  · simp
  · rfl

/-- A `setDefault` on another key does not change whether a key needs its
default. -/
lemma needsDefault_setDefault_ne (d : Dict) (k : String) (v : PyVal)
    (q : String) (h : q ≠ k) :
    needsDefault (setDefault d k v) q = needsDefault d q := by
  unfold needsDefault
  rw [setDefault_ne d k v q h]

/-- C10: `create_options` substitutes the hardcoded default for each of
the six configuration keys exactly when the key is absent or its supplied
value is falsy (so an empty board list or empty folder string is silently
replaced), and every other key of the dictionary is left unchanged (the
same dictionary, mutated in place). -/
theorem create_options_defaults (d : Dict) (q : String) :
    (q ∉ OPTION_KEYS → create_options d q = d q) ∧
    create_options d "boards" =
      (if needsDefault d "boards" then some (.strList DEF_BOARDS)
        else d "boards") ∧
    create_options d "image_folder" =
      (if needsDefault d "image_folder" then some (.str DEF_IMAGE_FOLDER)
        else d "image_folder") ∧
    create_options d "min_dimension" =
      (if needsDefault d "min_dimension" then some (.intPair DEF_MIN_DIMENSION)
        else d "min_dimension") ∧
    create_options d "max_dimension" =
      (if needsDefault d "max_dimension" then some (.intPair DEF_MAX_DIMENSION)
        else d "max_dimension") ∧
    create_options d "cmd_scale_option" =
      (if needsDefault d "cmd_scale_option" then some (.str BG_CHANGE_OPT_FILL)
        else d "cmd_scale_option") ∧
    create_options d "cmd_suffix" =
      (if needsDefault d "cmd_suffix" then some (.str BG_CHANGE_OPT_SUFFIX)
        else d "cmd_suffix") := by
  refine ⟨?_, ?_, ?_, ?_, ?_, ?_, ?_⟩
  · intro hq
    simp only [OPTION_KEYS, List.mem_cons, List.not_mem_nil, or_false,
      not_or] at hq
    obtain ⟨h1, h2, h3, h4, h5, h6⟩ := hq
    unfold create_options
    rw [setDefault_ne _ _ _ _ h6, setDefault_ne _ _ _ _ h5,
      setDefault_ne _ _ _ _ h4, setDefault_ne _ _ _ _ h3,
      setDefault_ne _ _ _ _ h2, setDefault_ne _ _ _ _ h1]
  · unfold create_options
    rw [setDefault_ne _ _ _ _ (by decide), setDefault_ne _ _ _ _ (by decide),
      setDefault_ne _ _ _ _ (by decide), setDefault_ne _ _ _ _ (by decide),
      setDefault_ne _ _ _ _ (by decide), setDefault_self]
  · unfold create_options
    rw [setDefault_ne _ _ _ _ (by decide), setDefault_ne _ _ _ _ (by decide),
      setDefault_ne _ _ _ _ (by decide), setDefault_ne _ _ _ _ (by decide),
      setDefault_self, needsDefault_setDefault_ne _ _ _ _ (by decide),
      setDefault_ne _ _ _ _ (by decide)]
  · unfold create_options
    rw [setDefault_ne _ _ _ _ (by decide), setDefault_ne _ _ _ _ (by decide),
      setDefault_ne _ _ _ _ (by decide), setDefault_self,
      needsDefault_setDefault_ne _ _ _ _ (by decide),
      needsDefault_setDefault_ne _ _ _ _ (by decide),
      setDefault_ne _ _ _ _ (by decide), setDefault_ne _ _ _ _ (by decide)]
  · unfold create_options
    rw [setDefault_ne _ _ _ _ (by decide), setDefault_ne _ _ _ _ (by decide),
      setDefault_self, needsDefault_setDefault_ne _ _ _ _ (by decide),
      needsDefault_setDefault_ne _ _ _ _ (by decide),
      needsDefault_setDefault_ne _ _ _ _ (by decide),
      setDefault_ne _ _ _ _ (by decide), setDefault_ne _ _ _ _ (by decide),
      setDefault_ne _ _ _ _ (by decide)]
  · unfold create_options
    rw [setDefault_ne _ _ _ _ (by decide), setDefault_self,
      needsDefault_setDefault_ne _ _ _ _ (by decide),
      needsDefault_setDefault_ne _ _ _ _ (by decide),
      needsDefault_setDefault_ne _ _ _ _ (by decide),
      needsDefault_setDefault_ne _ _ _ _ (by decide),
      setDefault_ne _ _ _ _ (by decide), setDefault_ne _ _ _ _ (by decide),
      setDefault_ne _ _ _ _ (by decide), setDefault_ne _ _ _ _ (by decide)]
  · unfold create_options
    rw [setDefault_self, needsDefault_setDefault_ne _ _ _ _ (by decide),
      needsDefault_setDefault_ne _ _ _ _ (by decide),
      needsDefault_setDefault_ne _ _ _ _ (by decide),
      needsDefault_setDefault_ne _ _ _ _ (by decide),
      needsDefault_setDefault_ne _ _ _ _ (by decide),
      setDefault_ne _ _ _ _ (by decide), setDefault_ne _ _ _ _ (by decide),
      setDefault_ne _ _ _ _ (by decide), setDefault_ne _ _ _ _ (by decide),
      setDefault_ne _ _ _ _ (by decide)]

/-- An options dictionary supplying an explicitly empty board list and a
non-empty folder, with all other keys absent. -/
def d10 : Dict := fun k =>
  if k = "boards" then some (.strList [])
  else if k = "image_folder" then some (.str "pics") else none

/-- Concrete instantiation of `create_options_defaults` on `d10`: the
falsy board list is replaced by the default, the truthy folder and the
unrelated key are untouched. -/
theorem create_options_defaults_witness :
    create_options d10 "zkey" = d10 "zkey" ∧
      create_options d10 "boards" =
        (if needsDefault d10 "boards" then some (.strList DEF_BOARDS)
          else d10 "boards") ∧
      create_options d10 "image_folder" =
        (if needsDefault d10 "image_folder" then some (.str DEF_IMAGE_FOLDER)
          else d10 "image_folder") :=
  ⟨(create_options_defaults d10 "zkey").1 (by decide),
   (create_options_defaults d10 "zkey").2.1,
   (create_options_defaults d10 "zkey").2.2.1⟩

end Chanbg
